import Mathlib

/-!
Shallow embedding of the core analysis components of the Odin firmware
analysis server (`server/app`), together with theorems checking the
natural-language specification against the code.

Each definition mirrors one Python function or data declaration from the
repository; the file comments name the original source location.
-/

/-- Risk severity levels, from `app/models/models.py`, `class RiskLevel`. -/
inductive RiskLevel where
  | low
  | medium
  | high
  | critical
deriving DecidableEq, Repr

/-- Project pipeline statuses, from `app/models/models.py`, `class ProjectStatus`. -/
inductive ProjectStatus where
  | pending
  | uploading
  | extracting
  | analyzing
  | osint
  | completed
  | failed
deriving DecidableEq, Repr

/-- Risk aggregator, from `app/services/analysis_tasks.py`,
`_calculate_risk_level`.  The two arguments are the severities of the
project's `Finding` rows and the severity levels of its `CVEFinding` rows
(the database queries deliver exactly those two lists).  Counting is the
literal translation of the `len([f for f in findings if f.severity == …])`
comprehensions, and the decision cascade mirrors the `if`/`elif` chain. -/
def calculate_risk_level (findings cve_findings : List RiskLevel) : RiskLevel :=
  let critical_count := (findings.filter (· == RiskLevel.critical)).length
                      + (cve_findings.filter (· == RiskLevel.critical)).length
  let high_count := (findings.filter (· == RiskLevel.high)).length
                  + (cve_findings.filter (· == RiskLevel.high)).length
  let medium_count := (findings.filter (· == RiskLevel.medium)).length
                    + (cve_findings.filter (· == RiskLevel.medium)).length
  if critical_count > 0 then RiskLevel.critical
  else if high_count ≥ 3 then RiskLevel.critical
  else if high_count > 0 then RiskLevel.high
  else if medium_count ≥ 5 then RiskLevel.high
  else if medium_count > 0 then RiskLevel.medium
  else RiskLevel.low

/-- The risk decision table exactly as the specification words it (§4.6):
a pure function of the three severity counts, evaluated top-down, first
match wins. -/
def riskDecisionTable (critical_count high_count medium_count : Nat) : RiskLevel :=
  if critical_count > 0 then RiskLevel.critical
  else if high_count ≥ 3 then RiskLevel.critical
  else if high_count ≥ 1 then RiskLevel.high
  else if medium_count ≥ 5 then RiskLevel.high
  else if medium_count ≥ 1 then RiskLevel.medium
  else RiskLevel.low

/-- Status-to-progress mapping, from `app/routers/analysis.py`,
`_calculate_progress`: the Python dict literal covers every enum member,
so the `.get(status, 0)` default is unreachable and the mapping is a total
match on the status. -/
def calculate_progress (status : ProjectStatus) : Nat :=
  match status with
  | ProjectStatus.pending => 0
  | ProjectStatus.uploading => 10
  | ProjectStatus.extracting => 30
  | ProjectStatus.analyzing => 60
  | ProjectStatus.osint => 80
  | ProjectStatus.completed => 100
  | ProjectStatus.failed => 0

/-- CVSS-score-to-severity mapping, from `app/services/analyzers/cve_analyzer.py`,
`_cvss_to_risk_level`.  The Python score is a JSON number (or `None`);
it is embedded as `Option ℚ`, and the threshold comparisons mirror the
`>= 9.0` / `>= 7.0` / `>= 4.0` cascade. -/
def cvss_to_risk_level (cvss_score : Option ℚ) : RiskLevel :=
  match cvss_score with
  | none => RiskLevel.low
  | some s =>
      if s ≥ 9 then RiskLevel.critical
      else if s ≥ 7 then RiskLevel.high
      else if s ≥ 4 then RiskLevel.medium
      else RiskLevel.low

lemma filter_beq_length_append (p : RiskLevel → Bool) (fs cs : List RiskLevel) :
    (fs.filter p).length + (cs.filter p).length = (fs ++ cs).countP p := by
  simp [List.countP_eq_length_filter, List.filter_append]

/-- Claim C1: the risk aggregator is a pure function of the multiset of
severities of the combined Findings and CVEFindings, and for all counts
it follows the spec's decision table: any critical → CRITICAL, else
high ≥ 3 → CRITICAL, else high ≥ 1 → HIGH, else medium ≥ 5 → HIGH, else
medium ≥ 1 → MEDIUM, else LOW, top-down with the first match winning. -/
theorem C1_risk_aggregator (fs cs fs' cs' : List RiskLevel)
    (hperm : (fs ++ cs).Perm (fs' ++ cs')) :
    calculate_risk_level fs cs
      = riskDecisionTable
          ((fs ++ cs).countP (· == RiskLevel.critical))
          ((fs ++ cs).countP (· == RiskLevel.high))
          ((fs ++ cs).countP (· == RiskLevel.medium))
    ∧ calculate_risk_level fs cs = calculate_risk_level fs' cs' := by
  have table : ∀ a b : List RiskLevel,
      calculate_risk_level a b
        = riskDecisionTable
            ((a ++ b).countP (· == RiskLevel.critical))
            ((a ++ b).countP (· == RiskLevel.high))
            ((a ++ b).countP (· == RiskLevel.medium)) := by
    intro a b
    show (if 0 < _ + _ then _ else _) = _
    rw [filter_beq_length_append, filter_beq_length_append, filter_beq_length_append]
    rfl
  refine ⟨table fs cs, ?_⟩
  rw [table fs cs, table fs' cs',
    hperm.countP_eq, hperm.countP_eq, hperm.countP_eq]

/-- Witness for C1 at a concrete input: three high findings split across
the two collections yield CRITICAL via the decision table. -/
theorem C1_risk_aggregator_witness :
    calculate_risk_level [RiskLevel.high, RiskLevel.high] [RiskLevel.high]
      = riskDecisionTable
          (([RiskLevel.high, RiskLevel.high] ++ [RiskLevel.high]).countP (· == RiskLevel.critical))
          (([RiskLevel.high, RiskLevel.high] ++ [RiskLevel.high]).countP (· == RiskLevel.high))
          (([RiskLevel.high, RiskLevel.high] ++ [RiskLevel.high]).countP (· == RiskLevel.medium))
    ∧ calculate_risk_level [RiskLevel.high, RiskLevel.high] [RiskLevel.high]
      = calculate_risk_level [RiskLevel.high] [RiskLevel.high, RiskLevel.high] :=
  C1_risk_aggregator [RiskLevel.high, RiskLevel.high] [RiskLevel.high]
    [RiskLevel.high] [RiskLevel.high, RiskLevel.high] (by decide)

/-- Claim C6: the status-to-progress mapping is a pure function of the
current status (it takes nothing else), returning exactly PENDING=0,
UPLOADING=10, EXTRACTING=30, ANALYZING=60, OSINT=80, COMPLETED=100,
FAILED=0. -/
theorem C6_progress_mapping :
    calculate_progress ProjectStatus.pending = 0
    ∧ calculate_progress ProjectStatus.uploading = 10
    ∧ calculate_progress ProjectStatus.extracting = 30
    ∧ calculate_progress ProjectStatus.analyzing = 60
    ∧ calculate_progress ProjectStatus.osint = 80
    ∧ calculate_progress ProjectStatus.completed = 100
    ∧ calculate_progress ProjectStatus.failed = 0 := by
  decide

/-- Claim C5: the CVSS mapping returns CRITICAL iff score ≥ 9.0, HIGH iff
7.0 ≤ score < 9.0, MEDIUM iff 4.0 ≤ score < 7.0, LOW iff score < 4.0, and
LOW on a missing score. -/
theorem C5_cvss_mapping :
    cvss_to_risk_level none = RiskLevel.low
    ∧ ∀ s : ℚ,
        (cvss_to_risk_level (some s) = RiskLevel.critical ↔ 9 ≤ s)
        ∧ (cvss_to_risk_level (some s) = RiskLevel.high ↔ 7 ≤ s ∧ s < 9)
        ∧ (cvss_to_risk_level (some s) = RiskLevel.medium ↔ 4 ≤ s ∧ s < 7)
        ∧ (cvss_to_risk_level (some s) = RiskLevel.low ↔ s < 4) := by
  refine ⟨rfl, fun s => ?_⟩
  simp only [cvss_to_risk_level]
  split_ifs with h1 h2 h3
  · exact ⟨iff_of_true rfl h1,
      iff_of_false (by decide) (fun h => absurd h.2 (not_lt.mpr h1)),
      iff_of_false (by decide)
        (fun h => absurd h.2 (not_lt.mpr (le_trans (by norm_num) h1))),
      iff_of_false (by decide)
        (fun h => absurd h (not_lt.mpr (le_trans (by norm_num) h1)))⟩
  · exact ⟨iff_of_false (by decide) h1,
      iff_of_true rfl ⟨h2, not_le.mp h1⟩,
      iff_of_false (by decide) (fun h => absurd h.2 (not_lt.mpr h2)),
      iff_of_false (by decide)
        (fun h => absurd h (not_lt.mpr (le_trans (by norm_num) h2)))⟩
  · exact ⟨iff_of_false (by decide) h1,
      iff_of_false (by decide) (fun h => h2 h.1),
      iff_of_true rfl ⟨h3, not_le.mp h2⟩,
      iff_of_false (by decide) (not_lt.mpr h3)⟩
  · exact ⟨iff_of_false (by decide) h1,
      iff_of_false (by decide) (fun h => h2 h.1),
      iff_of_false (by decide) (fun h => h3 h.1),
      iff_of_true rfl (not_le.mp h3)⟩

/-- Decimal digits to a natural number (left fold, so leading zeros are fine). -/
def digitsToNat (cs : List Char) : Nat :=
  cs.foldl (fun n c => 10 * n + (c.toNat - '0'.toNat)) 0

/-- Model of Python `int(x)` on a trimmed component, as used in
`_compare_versions` (`app/services/analyzers/cve_analyzer.py`): an
optional sign followed by one or more ASCII digits; anything else raises
`ValueError`, modelled as `none`.  (Python's underscore digit grouping
and non-ASCII digits are not modelled; no version component in this code
base can contain them.) -/
def pyIntCore : List Char → Option Int
  | [] => none
  | '-' :: rest =>
      if rest ≠ [] ∧ rest.all Char.isDigit then some (-(digitsToNat rest : Int)) else none
  | '+' :: rest =>
      if rest ≠ [] ∧ rest.all Char.isDigit then some ((digitsToNat rest : Int)) else none
  | cs => if cs.all Char.isDigit then some ((digitsToNat cs : Int)) else none

/-- Whitespace stripping that Python's `int` applies to its argument. -/
def trimChars (cs : List Char) : List Char :=
  ((cs.dropWhile Char.isWhitespace).reverse.dropWhile Char.isWhitespace).reverse

/-- Python `int(x)` on one dot-separated component. -/
def pyInt (cs : List Char) : Option Int := pyIntCore (trimChars cs)

/-- Python `s.split('.')`, on the character list of the string: every
occurrence of `'.'` separates components, and empty components are kept. -/
def splitOnDot : List Char → List (List Char)
  | [] => [[]]
  | c :: rest =>
      match splitOnDot rest with
      | h :: t => if c = '.' then [] :: h :: t else (c :: h) :: t
      | [] => [[]]

/-- The `[int(x) for x in version.split('.')]` comprehension of
`_compare_versions`: `none` when any component raises `ValueError`. -/
def parseParts (v : String) : Option (List Int) :=
  (splitOnDot v.toList).mapM pyInt

/-- The comparison loop `for v1, v2 in zip(...)` of `_compare_versions`
(both lists have been padded to equal length before the loop), followed
by the final `return 0`. -/
def cmpIntList : List Int → List Int → Int
  | a :: as, b :: bs =>
      if a < b then -1 else if a > b then 1 else cmpIntList as bs
  | _, _ => 0

/-- The `parts.extend([0] * (max_len - len(parts)))` padding of
`_compare_versions`. -/
def padZeros (xs : List Int) (n : Nat) : List Int :=
  xs ++ List.replicate (n - xs.length) 0

/-- Python string `<`: lexicographic comparison by code point, a proper
prefix being smaller. -/
def charListLt : List Char → List Char → Bool
  | [], [] => false
  | [], _ :: _ => true
  | _ :: _, [] => false
  | a :: as, b :: bs => if a < b then true else if b < a then false else charListLt as bs

/-- The `except ValueError` fallback of `_compare_versions`:
`-1 if version1 < version2 else (1 if version1 > version2 else 0)` with
Python string comparison. -/
def pyStrCmp (a b : String) : Int :=
  if charListLt a.toList b.toList then -1
  else if charListLt b.toList a.toList then 1 else 0

/-- Version comparator, from `app/services/analyzers/cve_analyzer.py`,
`_compare_versions`: parse both strings as dotted integers, zero-pad the
shorter list and compare component-wise; if any component of either
string fails to parse as an integer, fall back to plain string
comparison of the two whole version strings. -/
def compare_versions (version1 version2 : String) : Int :=
  match parseParts version1, parseParts version2 with
  | some v1_parts, some v2_parts =>
      let max_len := max v1_parts.length v2_parts.length
      cmpIntList (padZeros v1_parts max_len) (padZeros v2_parts max_len)
  | _, _ => pyStrCmp version1 version2

/-- Comparison of the remaining components of the longer sequence against
the zeros padding the shorter one (used by `specVersionCmp`). -/
def specCmpRest : List Int → Int
  | [] => 0
  | b :: bs => if 0 < b then -1 else if b < 0 then 1 else specCmpRest bs

/-- Component-wise comparison of two integer sequences in which a missing
component counts as zero — written directly from the spec's words
("split on `.`, zero-pad the shorter sequence, compare component-wise"),
independently of the padding mechanics of the code. -/
def specVersionCmp : List Int → List Int → Int
  | [], bs => specCmpRest bs
  | a :: as, [] =>
      if a < 0 then -1 else if 0 < a then 1 else specVersionCmp as []
  | a :: as, b :: bs =>
      if a < b then -1 else if a > b then 1 else specVersionCmp as bs

lemma cmpIntList_replicate_left (b : List Int) :
    cmpIntList (List.replicate b.length 0) b = specCmpRest b := by
  induction b with
  | nil => rfl
  | cons b0 bs ih =>
      simp only [List.length_cons, List.replicate_succ, cmpIntList, specCmpRest, gt_iff_lt]
      split_ifs <;> first | rfl | exact ih

lemma cmpIntList_replicate_right (a : List Int) :
    cmpIntList a (List.replicate a.length 0) = specVersionCmp a [] := by
  induction a with
  | nil => rfl
  | cons a0 as ih =>
      simp only [List.length_cons, List.replicate_succ, cmpIntList, specVersionCmp, gt_iff_lt]
      split_ifs <;> first | rfl | exact ih

lemma padZeros_cons (x : Int) (xs : List Int) (m : Nat) :
    padZeros (x :: xs) (m + 1) = x :: padZeros xs m := by
  simp [padZeros, Nat.succ_sub_succ]

lemma cmpIntList_pad_eq_spec (a b : List Int) :
    cmpIntList (padZeros a (max a.length b.length)) (padZeros b (max a.length b.length))
      = specVersionCmp a b := by
  induction a generalizing b with
  | nil =>
      simp only [padZeros, List.length_nil, Nat.zero_max, List.nil_append, Nat.sub_zero,
        Nat.sub_self, List.replicate_zero, List.append_nil]
      exact cmpIntList_replicate_left b
  | cons a0 as ih =>
      cases b with
      | nil =>
          simp only [padZeros, List.length_nil, Nat.max_zero, Nat.sub_zero, Nat.sub_self,
            List.replicate_zero, List.append_nil, List.nil_append]
          exact cmpIntList_replicate_right (a0 :: as)
      | cons b0 bs =>
          have hm : max (a0 :: as).length (b0 :: bs).length
              = max as.length bs.length + 1 := by
            simp only [List.length_cons]
            omega
          rw [hm, padZeros_cons, padZeros_cons]
          simp only [cmpIntList, specVersionCmp, gt_iff_lt]
          split_ifs <;> first | rfl | exact ih bs

/-- Claim C3: the version comparator splits both strings on `.`, zero-pads
the shorter component sequence to the longer one's length and compares
component-wise as integers (stated as agreement with the independently
defined `specVersionCmp`); in particular "1.2" compares equal to "1.2.0",
"1.3" compares greater than "1.2.9", and "2" compares greater than
"1.9.9". -/
theorem C3_version_comparator (v1 v2 : String) (xs ys : List Int)
    (h1 : parseParts v1 = some xs) (h2 : parseParts v2 = some ys) :
    compare_versions v1 v2 = specVersionCmp xs ys
    ∧ compare_versions "1.2" "1.2.0" = 0
    ∧ compare_versions "1.3" "1.2.9" = 1
    ∧ compare_versions "2" "1.9.9" = 1 := by
  refine ⟨?_, by decide, by decide, by decide⟩
  simp only [compare_versions, h1, h2]
  exact cmpIntList_pad_eq_spec xs ys

/-- Witness for C3 at a concrete input: both "1.2" and "1.2.0" consist of
dotted decimal integers, and the comparator agrees with the spec's
zero-padded component-wise comparison on them. -/
theorem C3_version_comparator_witness :
    parseParts "1.2" = some [1, 2]
    ∧ parseParts "1.2.0" = some [1, 2, 0]
    ∧ (compare_versions "1.2" "1.2.0" = specVersionCmp [1, 2] [1, 2, 0]
       ∧ compare_versions "1.2" "1.2.0" = 0
       ∧ compare_versions "1.3" "1.2.9" = 1
       ∧ compare_versions "2" "1.9.9" = 1) :=
  ⟨by decide, by decide,
    C3_version_comparator "1.2" "1.2.0" [1, 2] [1, 2, 0] (by decide) (by decide)⟩

/-- Shape of the capture group of the openssl version pattern
`OpenSSL\s+(\d+\.\d+\.\d+[a-z]?)` from `CVEAnalyzer.software_patterns`
(`app/services/analyzers/cve_analyzer.py`): digits, dot, digits, dot,
digits, then at most one lowercase letter (`digitsThenOptLetter`). -/
def digitsThenOptLetter (c : List Char) : Bool :=
  match c.reverse with
  | [] => false
  | last :: revRest =>
      if last.isDigit then revRest.all Char.isDigit
      else ('a' ≤ last && last ≤ 'z') && !revRest.isEmpty && revRest.all Char.isDigit

/-- Whether a whole string has the shape the openssl version patterns of
the software registry can capture. -/
def opensslVersionShape (s : String) : Bool :=
  match splitOnDot s.toList with
  | [a, b, c] =>
      !a.isEmpty && a.all Char.isDigit
      && !b.isEmpty && b.all Char.isDigit
      && digitsThenOptLetter c
  | _ => false

/-- Claim C10: whenever either argument of the version comparator has a
dot-separated component that is not a decimal integer, the comparator
falls back to plain lexicographic string comparison of the whole version
strings; the version "1.0.2a" — capturable by the registry's own openssl
patterns — is such an argument, and against "1.0.11" the fallback orders
it lexicographically (greater, although numerically 2 < 11). -/
theorem C10_nonnumeric_fallback (v1 v2 : String)
    (h : parseParts v1 = none ∨ parseParts v2 = none) :
    compare_versions v1 v2 = pyStrCmp v1 v2
    ∧ opensslVersionShape "1.0.2a" = true
    ∧ parseParts "1.0.2a" = none
    ∧ compare_versions "1.0.2a" "1.0.11" = pyStrCmp "1.0.2a" "1.0.11"
    ∧ compare_versions "1.0.2a" "1.0.11" = 1 := by
  refine ⟨?_, by decide, by decide, by decide, by decide⟩
  rcases h with h | h
  · rcases hv2 : parseParts v2 with _ | ys <;> simp [compare_versions, h, hv2]
  · rcases hv1 : parseParts v1 with _ | xs <;> simp [compare_versions, h, hv1]

/-- Witness for C10 at a concrete input: "1.0.2a" fails integer parsing,
so the comparator answers by string comparison. -/
theorem C10_nonnumeric_fallback_witness :
    (parseParts "1.0.2a" = none ∨ parseParts "1.0.11" = none)
    ∧ (compare_versions "1.0.2a" "1.0.11" = pyStrCmp "1.0.2a" "1.0.11"
       ∧ opensslVersionShape "1.0.2a" = true
       ∧ parseParts "1.0.2a" = none
       ∧ compare_versions "1.0.2a" "1.0.11" = pyStrCmp "1.0.2a" "1.0.11"
       ∧ compare_versions "1.0.2a" "1.0.11" = 1) :=
  ⟨Or.inl (by decide),
    C10_nonnumeric_fallback "1.0.2a" "1.0.11" (Or.inl (by decide))⟩

/-- Python `str.lower()`, as a character list. -/
def lowerChars (s : String) : List Char := s.toList.map Char.toLower

/-- Python `needle in haystack` on strings: contiguous substring test. -/
def containsSub (haystack needle : List Char) : Bool := decide (needle <:+: haystack)

/-- One `cpeMatch` entry of an NVD advisory configuration node, with the
fields `_is_version_affected` reads (`app/services/analyzers/cve_analyzer.py`). -/
structure CpeMatch where
  criteria : String
  versionStartIncluding : Option String
  versionEndExcluding : Option String

/-- The `software_name.lower() in cpe_name.lower()` test of
`_is_version_affected`. -/
def cpe_name_matches (cpe : CpeMatch) (software_name : String) : Bool :=
  containsSub (lowerChars cpe.criteria) (lowerChars software_name)

/-- The per-entry affectedness decision of `_is_version_affected`: `True`
when the entry has no version bounds at all; otherwise `True` exactly when
a `versionStartIncluding` is present, the version compares ≥ to it, and
either no `versionEndExcluding` is present or the version compares < to
it.  An entry carrying only `versionEndExcluding` never returns `True`
(the `if version_start and …` guard is falsy). -/
def cpeMatchGivesAffected (cpe : CpeMatch) (version : String) : Bool :=
  (cpe.versionStartIncluding.isNone && cpe.versionEndExcluding.isNone)
  || (match cpe.versionStartIncluding with
      | none => false
      | some version_start =>
          decide (compare_versions version version_start ≥ 0)
          && (match cpe.versionEndExcluding with
              | none => true
              | some version_end => decide (compare_versions version version_end < 0)))

/-- `_is_version_affected` over the advisory's configuration nodes: the
double loop with early `return True` is the disjunction over all entries
of all nodes. -/
def is_version_affected (nodes : List (List CpeMatch)) (software_name version : String) : Bool :=
  nodes.any (fun cpe_matches =>
    cpe_matches.any (fun cpe =>
      cpe_name_matches cpe software_name && cpeMatchGivesAffected cpe version))

/-- The affectedness condition in the spec's words: no range ⇒ affected
unconditionally; otherwise affected iff the version is ≥ the (present)
`versionStartIncluding` and there is no `versionEndExcluding` or the
version is < it. -/
def specAffectedFormula (cpe : CpeMatch) (version : String) : Prop :=
  if cpe.versionStartIncluding = none ∧ cpe.versionEndExcluding = none then True
  else
    (∃ vs, cpe.versionStartIncluding = some vs ∧ compare_versions version vs ≥ 0)
    ∧ (cpe.versionEndExcluding = none
       ∨ ∃ ve, cpe.versionEndExcluding = some ve ∧ compare_versions version ve < 0)

/-- Claim C4: for every configuration entry whose criteria matches, an
entry with no version range is affected unconditionally, and otherwise
affectedness is exactly `version ≥ versionStartIncluding ∧ (no
versionEndExcluding ∨ version < versionEndExcluding)` — which settles the
single-bound entries: start-only entries are affected iff version ≥
start, and end-only entries are never affected (no start bound exists for
the version to be ≥). -/
theorem C4_version_range_affectedness (cpe : CpeMatch) (version : String) :
    (cpeMatchGivesAffected cpe version = true ↔ specAffectedFormula cpe version)
    ∧ (∀ vs, cpe.versionStartIncluding = some vs → cpe.versionEndExcluding = none →
        (cpeMatchGivesAffected cpe version = true ↔ compare_versions version vs ≥ 0))
    ∧ (cpe.versionStartIncluding = none →
        ∀ ve, cpe.versionEndExcluding = some ve →
          cpeMatchGivesAffected cpe version = false)
    ∧ (∀ nodes software_name,
        is_version_affected nodes software_name version = true ↔
          ∃ cpe_matches ∈ nodes, ∃ c ∈ cpe_matches,
            cpe_name_matches c software_name = true ∧ specAffectedFormula c version) := by
  have entry : ∀ c : CpeMatch,
      cpeMatchGivesAffected c version = true ↔ specAffectedFormula c version := by
    rintro ⟨crit, vs, ve⟩
    rcases vs with _ | vs <;> rcases ve with _ | ve <;>
      simp [cpeMatchGivesAffected, specAffectedFormula]
  refine ⟨entry cpe, ?_, ?_, ?_⟩
  · rintro vs hvs hve
    rcases cpe with ⟨crit, s, e⟩
    simp only at hvs hve
    subst hvs; subst hve
    simp [cpeMatchGivesAffected]
  · rintro hs ve hve
    rcases cpe with ⟨crit, s, e⟩
    simp only at hs hve
    subst hs; subst hve
    simp [cpeMatchGivesAffected]
  · intro nodes software_name
    simp only [is_version_affected, List.any_eq_true, Bool.and_eq_true]
    constructor
    · rintro ⟨ms, hms, c, hc, hname, haff⟩
      exact ⟨ms, hms, c, hc, hname, (entry c).mp haff⟩
    · rintro ⟨ms, hms, c, hc, hname, haff⟩
      exact ⟨ms, hms, c, hc, hname, (entry c).mpr haff⟩

/-- Witness for C4 at a concrete input: a start-only entry for busybox is
affected exactly when the detected version compares ≥ to the start
bound. -/
theorem C4_version_range_affectedness_witness :
    cpeMatchGivesAffected ⟨"cpe:2.3:a:busybox:busybox", some "1.0", none⟩ "1.2" = true
      ↔ compare_versions "1.2" "1.0" ≥ 0 :=
  (C4_version_range_affectedness ⟨"cpe:2.3:a:busybox:busybox", some "1.0", none⟩ "1.2").2.1
    "1.0" rfl rfl

/-- One entry of an extraction output tree: its name, whether it is a
directory, and the entries directly beneath it (files carry an empty
list).  Children are kept in the scan order of the underlying directory. -/
inductive FsEntry : Type where
  | mk : String → Bool → List FsEntry → FsEntry

/-- Name of an entry. -/
def FsEntry.name : FsEntry → String
  | FsEntry.mk n _ _ => n

/-- Whether the entry is a directory (`Path.is_dir()`). -/
def FsEntry.isDir : FsEntry → Bool
  | FsEntry.mk _ d _ => d

/-- Entries directly beneath this entry. -/
def FsEntry.children : FsEntry → List FsEntry
  | FsEntry.mk _ _ cs => cs

mutual

/-- The directory sequence of `pathlib`'s recursive iteration: a
directory, then — depth-first, in child order — every descendant
directory. -/
def dirSeq : FsEntry → List FsEntry
  | FsEntry.mk n b cs => FsEntry.mk n b cs :: dirSeqList cs

/-- Helper of `dirSeq` for a list of sibling entries; files contribute
nothing. -/
def dirSeqList : List FsEntry → List FsEntry
  | [] => []
  | c :: cs => (if c.isDir then dirSeq c else []) ++ dirSeqList cs

end

/-- `extract_dir.rglob("*")`: every entry strictly below `extract_dir`
(never `extract_dir` itself), listed as the immediate children of each
directory of `dirSeq`, in that order. -/
def rglobList (extract_dir : FsEntry) : List FsEntry :=
  (dirSeq extract_dir).flatMap FsEntry.children

/-- The `sum(1 for d in common_dirs if (item / d).exists())` count of
`_find_main_filesystem`: how many of the marker names bin/etc/usr/var
exist as an entry (of any kind — `Path.exists` does not require a
directory) directly beneath `item`. -/
def found_dirs (item : FsEntry) : Nat :=
  (["bin", "etc", "usr", "var"] : List String).countP
    (fun d => item.children.any (fun c => c.name == d))

/-- The `for item in extract_dir.rglob("*")` loop of
`_find_main_filesystem` (both `StaticAnalyzer` and `CVEAnalyzer` carry the
identical function): skip non-directories, return the first directory
whose marker count reaches 2, else fall through to `None`. -/
def find_main_filesystem_loop : List FsEntry → Option FsEntry
  | [] => none
  | item :: rest =>
      if item.isDir && decide (2 ≤ found_dirs item) then some item
      else find_main_filesystem_loop rest

/-- `_find_main_filesystem` itself. -/
def find_main_filesystem (extract_dir : FsEntry) : Option FsEntry :=
  find_main_filesystem_loop (rglobList extract_dir)

lemma find_main_filesystem_loop_eq_find? (l : List FsEntry) :
    find_main_filesystem_loop l
      = l.find? (fun item => item.isDir && decide (2 ≤ found_dirs item)) := by
  induction l with
  | nil => rfl
  | cons item rest ih =>
      rcases hb : (item.isDir && decide (2 ≤ found_dirs item)) with _ | _ <;>
        simp [find_main_filesystem_loop, List.find?, hb, ih]

/-- Claim C7: on any directory tree the locator returns the first
traversed directory whose count of marker names {bin, etc, usr, var}
directly beneath it reaches 2 (stated via `List.find?` over the traversal
order); when no directory qualifies it returns `none` rather than
failing; and a tree whose only qualifying directory has bin/ and etc/
children returns exactly that directory. -/
theorem C7_filesystem_locator (root : FsEntry) :
    find_main_filesystem root
      = (rglobList root).find? (fun item => item.isDir && decide (2 ≤ found_dirs item))
    ∧ ((∀ item ∈ rglobList root, item.isDir = true → found_dirs item < 2) →
        find_main_filesystem root = none)
    ∧ find_main_filesystem
        (FsEntry.mk "extract" true
          [FsEntry.mk "rootfs" true [FsEntry.mk "bin" true [], FsEntry.mk "etc" true []]])
      = some (FsEntry.mk "rootfs" true [FsEntry.mk "bin" true [], FsEntry.mk "etc" true []]) := by
  refine ⟨find_main_filesystem_loop_eq_find? _, ?_, by rfl⟩
  intro h
  rw [find_main_filesystem, find_main_filesystem_loop_eq_find?]
  apply List.find?_eq_none.mpr
  intro x hx
  rcases hd : x.isDir with _ | _
  · simp [hd]
  · simp only [hd, Bool.true_and, Bool.not_eq_true, decide_eq_false_iff_not]
    exact Nat.not_le.mpr (h x hx hd)

/-- Witness for C7 at a concrete input: a tree with a single empty `bin`
subdirectory has no qualifying directory, and the locator returns
`none`. -/
theorem C7_filesystem_locator_witness :
    (∀ item ∈ rglobList (FsEntry.mk "x" true [FsEntry.mk "bin" true []]),
        item.isDir = true → found_dirs item < 2)
    ∧ find_main_filesystem (FsEntry.mk "x" true [FsEntry.mk "bin" true []]) = none :=
  ⟨by simp [rglobList, dirSeq, dirSeqList, FsEntry.children, FsEntry.isDir, found_dirs],
   (C7_filesystem_locator (FsEntry.mk "x" true [FsEntry.mk "bin" true []])).2.1
     (by simp [rglobList, dirSeq, dirSeqList, FsEntry.children, FsEntry.isDir, found_dirs])⟩

/-- The `confidence_keywords` dict of `_calculate_confidence`
(`app/services/analyzers/osint_analyzer.py`), looked up by search type;
search types outside the dict get no keyword boost. -/
def confidence_keywords (search_type : String) : Option (List String) :=
  if search_type = "credentials" then
    some ["password", "username", "login", "default", "admin"]
  else if search_type = "vulnerability" then
    some ["CVE", "exploit", "vulnerability", "security", "patch"]
  else if search_type = "device_info" then
    some ["manual", "documentation", "datasheet", "specification"]
  else if search_type = "security_advisory" then
    some ["advisory", "bulletin", "security", "update", "patch"]
  else none

/-- The `official_indicators` list of `_calculate_confidence`. -/
def official_indicators : List String :=
  ["official", "manufacturer", ".com", "support", "documentation"]

/-- `_calculate_confidence`: base 50, plus 10 per category keyword found
in the lowercased `title + " " + snippet` text, plus 5 per official-source
indicator found, capped by `min(100, …)`.  Keywords are membership-tested
verbatim (the code does not lowercase them). -/
def calculate_confidence (title snippet search_type : String) : Nat :=
  let text := (title ++ " " ++ snippet).toList.map Char.toLower
  let kwBoost :=
    match confidence_keywords search_type with
    | some kws => 10 * kws.countP (fun keyword => containsSub text keyword.toList)
    | none => 0
  let offBoost := 5 * official_indicators.countP (fun ind => containsSub text ind.toList)
  min 100 (50 + kwBoost + offBoost)

/-- The credential-database confidence boost of
`_search_credential_databases`: `min(90, confidence_score + 20)`. -/
def credential_database_boost (confidence_score : Nat) : Nat :=
  min 90 (confidence_score + 20)

lemma containsSub_append_right (t u k : List Char) (h : containsSub t k = true) :
    containsSub (t ++ u) k = true := by
  simp only [containsSub, decide_eq_true_eq] at *
  rcases h with ⟨s, r, hsr⟩
  exact ⟨s, r ++ u, by rw [← hsr]; simp⟩

/-- Claim C9: OSINT confidence scoring is monotonic and bounded — the
score starts at base 50 (an empty text scores exactly 50 for every search
type), extending the text never decreases the score, the returned score
always lies in [50, 100], and the credential-database boost keeps any
score at most 100. -/
theorem C9_confidence_monotone_bounded (title snippet extra search_type : String) :
    calculate_confidence title snippet search_type
      ≤ calculate_confidence title (snippet ++ extra) search_type
    ∧ 50 ≤ calculate_confidence title snippet search_type
    ∧ calculate_confidence title snippet search_type ≤ 100
    ∧ calculate_confidence "" "" search_type = 50
    ∧ credential_database_boost (calculate_confidence title snippet search_type) ≤ 100 := by
  refine ⟨?_, ?_, ?_, ?_, ?_⟩
  · unfold calculate_confidence
    have htext : (title ++ " " ++ (snippet ++ extra)).toList.map Char.toLower
        = (title ++ " " ++ snippet).toList.map Char.toLower
          ++ extra.toList.map Char.toLower := by
      rw [← String.append_assoc]
      simp
    rw [htext]
    refine min_le_min (le_refl 100) ?_
    have hoff :
        official_indicators.countP
            (fun ind => containsSub ((title ++ " " ++ snippet).toList.map Char.toLower) ind.toList)
          ≤ official_indicators.countP
            (fun ind => containsSub ((title ++ " " ++ snippet).toList.map Char.toLower
                ++ extra.toList.map Char.toLower) ind.toList) := by
      apply List.countP_mono_left
      intro a _ ha
      exact containsSub_append_right _ _ _ ha
    cases hck : confidence_keywords search_type with
    | none =>
        simp only [hck]
        exact Nat.add_le_add (le_refl _) (Nat.mul_le_mul_left 5 hoff)
    | some kws =>
        have hkw : kws.countP
              (fun keyword => containsSub ((title ++ " " ++ snippet).toList.map Char.toLower) keyword.toList)
            ≤ kws.countP
              (fun keyword => containsSub ((title ++ " " ++ snippet).toList.map Char.toLower
                  ++ extra.toList.map Char.toLower) keyword.toList) := by
          apply List.countP_mono_left
          intro a _ ha
          exact containsSub_append_right _ _ _ ha
        simp only [hck]
        exact Nat.add_le_add (Nat.add_le_add (le_refl 50) (Nat.mul_le_mul_left 10 hkw))
          (Nat.mul_le_mul_left 5 hoff)
  · exact Nat.le_min.mpr
      ⟨by norm_num, le_trans (Nat.le_add_right 50 _) (Nat.le_add_right _ _)⟩
  · exact Nat.min_le_left _ _
  · unfold calculate_confidence confidence_keywords
    split_ifs <;> decide
  · exact le_trans (Nat.min_le_left _ _) (by norm_num)

/-- The `for connection in self.active_connections[project_id]` loop of
`ConnectionManager.send_project_update` (`app/routers/websocket.py`),
modelled exactly as CPython executes it: the list iterator holds an
integer index into the live list, and the bare `except` branch calls
`list.remove(connection)` on that same list (removing the first equal
element), shifting later elements under the iterator.  `conns` is the
current subscriber-channel list (channels as ids), `fails c = true` means
`connection.send_text` raises for `c`.  Returns the pair (channels the
update was delivered to, final subscriber list).  The loop itself never
raises to the caller — every delivery error is swallowed by the bare
`except`. -/
def send_update_loop (conns : List Nat) (fails : Nat → Bool) (i : Nat)
    (delivered : List Nat) : List Nat × List Nat :=
  if h : i < conns.length then
    if fails conns[i] then
      send_update_loop (conns.erase conns[i]) fails (i + 1) delivered
    else
      send_update_loop conns fails (i + 1) (delivered ++ [conns[i]])
  else (delivered, conns)
termination_by conns.length - i
decreasing_by
  · have hmem : conns[i] ∈ conns := List.getElem_mem h
    have hlen := List.length_erase_of_mem hmem
    omega
  · omega

/-- `ConnectionManager.send_project_update` for a project that has a
subscriber list registered. -/
def send_project_update (conns : List Nat) (fails : Nat → Bool) : List Nat × List Nat :=
  send_update_loop conns fails 0 []

/-- Claim C8 is violated by the code: with current subscribers [0, 1]
where delivery to subscriber 0 raises and delivery to subscriber 1 would
succeed, the broadcast delivers to nobody — `remove` inside the `except`
branch shifts the list under the live loop index, so subscriber 1 is
skipped even though it stays a current subscriber.  With no failures the
same loop delivers to every subscriber, isolating the defect to the
failure path. -/
theorem C8_delivery_failure_skips_next :
    send_project_update [0, 1] (fun c => c == 0) = ([], [1])
    ∧ 1 ∉ (send_project_update [0, 1] (fun c => c == 0)).1
    ∧ (fun c => c == 0) 1 = false
    ∧ send_project_update [0, 1] (fun _ => false) = ([0, 1], [0, 1]) := by
  refine ⟨?_, ?_, by decide, ?_⟩ <;>
    simp [send_project_update, send_update_loop]

/-- The dict returned by `BinwalkExtractor.extract` as `analyze_firmware`
reads it (`app/services/analysis_tasks.py`): a success flag, the error
message used when `success` is false, and the extraction path handed to
the analyzers. -/
structure ExtractionResult where
  success : Bool
  error : String
  extract_path : String

/-- The collaborator outcomes a single `analyze_firmware` run can
observe, in program order.  Each `Except.error m` stands for that call
raising a Python exception with message `m`; `Except.ok` for a normal
return.  `commitExtraction` is the `db.commit()` after persisting
extraction results, `commitResults` the commit of findings, CVEs, OSINT
rows and risk level before the final status update.  The static and CVE
stages return the severities of the rows they persist. -/
structure PipelineEnv where
  extraction : Except String ExtractionResult
  commitExtraction : Except String Unit
  staticAnalysis : Except String (List RiskLevel)
  cveAnalysis : Except String (List RiskLevel)
  osintAnalysis : Except String Nat
  commitResults : Except String Unit

/-- Observable outcome of one `analyze_firmware` run: the status updates
pushed through `update_project_status` in order, the error the task
returned (the `{"error": …}` dict) if any, which analysis stages were
entered, whether `db.close()` ran (the `finally` block), and the risk
level committed on full success. -/
structure PipelineRun where
  updates : List (ProjectStatus × String)
  retError : Option String
  staticRan : Bool
  cveRan : Bool
  osintRan : Bool
  dbClosed : Bool
  finalRisk : Option RiskLevel

/-- `analyze_firmware` (`app/services/analysis_tasks.py`) for an existing
project: status EXTRACTING, extraction; a reported extraction failure
transitions to FAILED with `"Ekstraksi gagal: " + error` and returns; an
exception anywhere in the `try` block falls to the `except` handler,
which transitions to FAILED with `"Analisis gagal: " + str(e)`; the
`finally` block closes the session on every path. -/
def analyze_firmware (env : PipelineEnv) : PipelineRun :=
  let u0 := [(ProjectStatus.extracting, "Mengekstraksi filesystem...")]
  match env.extraction with
  | Except.error m =>
      ⟨u0 ++ [(ProjectStatus.failed, "Analisis gagal: " ++ m)],
        some m, false, false, false, true, none⟩
  | Except.ok extraction_result =>
      if extraction_result.success = false then
        ⟨u0 ++ [(ProjectStatus.failed, "Ekstraksi gagal: " ++ extraction_result.error)],
          some extraction_result.error, false, false, false, true, none⟩
      else
        match env.commitExtraction with
        | Except.error m =>
            ⟨u0 ++ [(ProjectStatus.failed, "Analisis gagal: " ++ m)],
              some m, false, false, false, true, none⟩
        | Except.ok _ =>
            let u1 := u0 ++ [(ProjectStatus.analyzing, "Melakukan analisis statis...")]
            match env.staticAnalysis with
            | Except.error m =>
                ⟨u1 ++ [(ProjectStatus.failed, "Analisis gagal: " ++ m)],
                  some m, true, false, false, true, none⟩
            | Except.ok finding_severities =>
                match env.cveAnalysis with
                | Except.error m =>
                    ⟨u1 ++ [(ProjectStatus.failed, "Analisis gagal: " ++ m)],
                      some m, true, true, false, true, none⟩
                | Except.ok cve_severities =>
                    let u2 := u1 ++ [(ProjectStatus.osint, "Mengumpulkan intelligence...")]
                    match env.osintAnalysis with
                    | Except.error m =>
                        ⟨u2 ++ [(ProjectStatus.failed, "Analisis gagal: " ++ m)],
                          some m, true, true, true, true, none⟩
                    | Except.ok _ =>
                        match env.commitResults with
                        | Except.error m =>
                            ⟨u2 ++ [(ProjectStatus.failed, "Analisis gagal: " ++ m)],
                              some m, true, true, true, true, none⟩
                        | Except.ok _ =>
                            ⟨u2 ++ [(ProjectStatus.completed, "Analisis selesai!")],
                              none, true, true, true, true,
                              some (calculate_risk_level finding_severities cve_severities)⟩

/-- The first exception raised after a successful extraction, in program
order. -/
def firstPostExtractionError (env : PipelineEnv) : Option String :=
  match env.commitExtraction with
  | Except.error m => some m
  | Except.ok _ =>
      match env.staticAnalysis with
      | Except.error m => some m
      | Except.ok _ =>
          match env.cveAnalysis with
          | Except.error m => some m
          | Except.ok _ =>
              match env.osintAnalysis with
              | Except.error m => some m
              | Except.ok _ =>
                  match env.commitResults with
                  | Except.error m => some m
                  | Except.ok _ => none

/-- Claim C2: if extraction reports failure the project goes to FAILED
with a message containing the extractor's error and no analysis stage
runs afterwards; any exception raised after extraction is caught at the
top level, the last status update is FAILED with that exception's
message, the task returns the error, and on every path the database
session is closed. -/
theorem C2_pipeline_failure_policy (env : PipelineEnv) :
    (∀ er, env.extraction = Except.ok er → er.success = false →
      (analyze_firmware env).updates
          = [(ProjectStatus.extracting, "Mengekstraksi filesystem..."),
             (ProjectStatus.failed, "Ekstraksi gagal: " ++ er.error)]
      ∧ (analyze_firmware env).staticRan = false
      ∧ (analyze_firmware env).cveRan = false
      ∧ (analyze_firmware env).osintRan = false
      ∧ (analyze_firmware env).dbClosed = true
      ∧ er.error.toList <:+: ("Ekstraksi gagal: " ++ er.error).toList)
    ∧ (∀ er m, env.extraction = Except.ok er → er.success = true →
        firstPostExtractionError env = some m →
        (analyze_firmware env).updates.getLast?
            = some (ProjectStatus.failed, "Analisis gagal: " ++ m)
        ∧ (analyze_firmware env).retError = some m
        ∧ (analyze_firmware env).dbClosed = true)
    ∧ (analyze_firmware env).dbClosed = true := by
  rcases env with ⟨ex, ce, sa, ca, oa, cr⟩
  refine ⟨?_, ?_, ?_⟩
  · intro er hex hfail
    simp only at hex
    subst hex
    have hrun :
        analyze_firmware ⟨Except.ok er, ce, sa, ca, oa, cr⟩
          = ⟨[(ProjectStatus.extracting, "Mengekstraksi filesystem..."),
              (ProjectStatus.failed, "Ekstraksi gagal: " ++ er.error)],
             some er.error, false, false, false, true, none⟩ := by
      simp [analyze_firmware, hfail]
    rw [hrun]
    exact ⟨rfl, rfl, rfl, rfl, rfl, ⟨"Ekstraksi gagal: ".toList, [], by simp⟩⟩
  · intro er m hex hsucc hfirst
    simp only at hex
    subst hex
    rcases ce with m1 | u1 <;> rcases sa with m2 | l1 <;> rcases ca with m3 | l2 <;>
      rcases oa with m4 | n1 <;> rcases cr with m5 | u2 <;>
      simp_all [analyze_firmware, firstPostExtractionError, List.getLast?_concat]
  · rcases ex with m0 | er
    · simp [analyze_firmware]
    · rcases hsb : er.success with _ | _ <;> rcases ce with m1 | u1 <;>
        rcases sa with m2 | l1 <;> rcases ca with m3 | l2 <;>
        rcases oa with m4 | n1 <;> rcases cr with m5 | u2 <;>
        simp [analyze_firmware, hsb]

/-- Witness for C2 at concrete inputs: a run whose extractor reports
failure with message "unsupported format" stops with the two expected
status updates, and a run whose first post-extraction exception is
"db write refused" ends on FAILED with that message. -/
theorem C2_pipeline_failure_policy_witness :
    (analyze_firmware
        ⟨Except.ok ⟨false, "unsupported format", "out"⟩, Except.ok (),
         Except.ok [], Except.ok [], Except.ok 0, Except.ok ()⟩).updates
      = [(ProjectStatus.extracting, "Mengekstraksi filesystem..."),
         (ProjectStatus.failed, "Ekstraksi gagal: " ++ "unsupported format")]
    ∧ (analyze_firmware
        ⟨Except.ok ⟨true, "", "out"⟩, Except.ok (),
         Except.error "db write refused", Except.ok [], Except.ok 0,
         Except.ok ()⟩).updates.getLast?
      = some (ProjectStatus.failed, "Analisis gagal: " ++ "db write refused") :=
  ⟨((C2_pipeline_failure_policy
      ⟨Except.ok ⟨false, "unsupported format", "out"⟩, Except.ok (),
       Except.ok [], Except.ok [], Except.ok 0, Except.ok ()⟩).1
      ⟨false, "unsupported format", "out"⟩ rfl rfl).1,
   ((C2_pipeline_failure_policy
      ⟨Except.ok ⟨true, "", "out"⟩, Except.ok (),
       Except.error "db write refused", Except.ok [], Except.ok 0,
       Except.ok ()⟩).2.1
      ⟨true, "", "out"⟩ "db write refused" rfl rfl rfl).1⟩
